import Mathlib

/-!
# redux-localstorage: `persistState.js`

A shallow embedding of `src/persistState.js` and the properties of it that
the specification states.

## Modelling conventions

* JavaScript values are the type `JSVal`. Numbers are integers (the only
  thing the code looks at is whether a value is truthy, or `undefined`).
* JavaScript functions with side effects are state-passing functions over a
  world `σ` that is a type parameter: `σ → α × σ`. Every collaborator the
  code calls (the reducer, the merge function, `createStore`, the store, the
  storage adapter, `console.error`) is such a function and is a parameter of
  the definition that calls it. Collaborators are total: an exception thrown
  by one of them is not modelled.
* The storage adapter is asynchronous (spec §5: its callbacks fire later on
  the event loop). The callback handed to `storage.get` is therefore part of
  what `persistState` produces (`Enhanced.onGet`), and its invocation is an
  event of its own.
* Closure variables that are assigned after creation (the buffer of
  `bufferActions()`) are an explicit component of the state, `Live.buffer`.
-/

namespace ReduxLocalStorage

/-! ## Values and actions -/

/-- JavaScript values, as far as `persistState.js` inspects them. -/
inductive JSVal where
  | undefined : JSVal
  | null : JSVal
  | bool (b : Bool) : JSVal
  | num (n : Int) : JSVal
  | str (s : String) : JSVal
  | obj (props : List (String × JSVal)) : JSVal

namespace JSVal

/-- JavaScript truthiness (`ToBoolean`): what `x ? a : b`, `x || y` and
`if (x)` test. -/
def truthy : JSVal → Bool
  | undefined => false
  | null => false
  | bool b => b
  | num n => n != 0
  | str s => s != ""
  | obj _ => true

/-- The test `typeof v !== 'undefined'`. -/
def isDefined : JSVal → Bool
  | undefined => false
  | _ => true

/-- Property read `v[name]` on a value that may be an object; `undefined`
when the property is missing or the value has no properties. -/
def getProp (v : JSVal) (name : String) : JSVal :=
  match v with
  | obj props =>
    match props.find? (fun p => p.1 == name) with
    | some p => p.2
    | none => undefined
  | _ => undefined

/-- The expression `a || b`. -/
def orElse (a b : JSVal) : JSVal :=
  if a.truthy then a else b

end JSVal

/-- An action object: the three properties the code reads or writes. A
property that is absent is `undefined`. -/
structure Action where
  type : JSVal
  meta : JSVal
  payload : JSVal

/-- The constant `ActionTypes.INIT` (line 7). -/
def ActionTypes.INIT : String := "@@redux-localstorage/INIT"

/-- The test `action.type === ActionTypes.INIT` (lines 14 and 34): strict
equality with a string. -/
def Action.isInit (action : Action) : Bool :=
  match action.type with
  | JSVal.str s => s == ActionTypes.INIT
  | _ => false

/-! ## Collaborators -/

/-- A dispatch function `action => result` with effects on `σ`. -/
abbrev Dispatch (σ : Type) := Action → σ → JSVal × σ

/-- A reducer `(state, action) => state`. -/
abbrev Reducer (σ : Type) := JSVal → Action → σ → JSVal × σ

/-- A merge function `(initialState, persistedState) => state`. -/
abbrev Merge (σ : Type) := JSVal → JSVal → σ → JSVal × σ

/-- A storage adapter: `get(key, cb)` and `put(key, value, cb)`. The callback
of `put` only logs and is passed along; the callback of `get` fires later and
is kept in `Enhanced.onGet`. -/
structure Storage (σ : Type) where
  get : JSVal → σ → σ
  put : JSVal → JSVal → (JSVal → σ → σ) → σ → σ

/-- A store object: its own enumerable properties. `D` is the type of its
`dispatch`; `rest` stands for every property other than `dispatch` and
`getState` (`subscribe`, `replaceReducer`, ...), which the code never
touches. -/
structure Store (σ D R : Type) where
  dispatch : D
  getState : σ → JSVal × σ
  rest : R

/-- The function `createStore` that a store enhancer receives (`next` on
line 63). -/
abbrev CreateStore (σ R : Type) :=
  Reducer σ → JSVal → σ → Store σ (Dispatch σ) R × σ

/-- The modules and globals `persistState.js` imports or uses and that are
not part of it: `console.error`, the default adapter `adapter(localStorage)`
(line 2) and the default merge `mergeState` (line 3). -/
structure Env (σ : Type) where
  consoleError : String → JSVal → σ → σ
  defaultStorage : Storage σ
  mergeState : Merge σ

/-! ## `persistStateMiddleware` (lines 10-20) -/

/-- The callback handed to `storage.put` (lines 16-18). -/
def putCallback {σ : Type} (env : Env σ) (err : JSVal) (s : σ) : σ :=
  if err.truthy then
    env.consoleError "Unable to persist state to localStorage:" err s
  else s

/-- The call `persistStateMiddleware(store, storage, key)(next)(action)` in
the world `s`: `next(action)`, then, unless the action is the Initialization
Action, `storage.put(key, store.getState(), callback)`. The function returns
`undefined`. -/
def persistStateMiddleware {σ D R : Type} (env : Env σ) (store : Store σ D R)
    (storage : Storage σ) (key : JSVal) (next : Dispatch σ) (action : Action)
    (s : σ) : JSVal × σ :=
  let s1 := (next action s).2
  if action.isInit then (JSVal.undefined, s1)
  else
    let st := store.getState s1
    (JSVal.undefined, storage.put key st.1 (putCallback env) st.2)

/-! ## `mergePersistedState` (lines 31-42) -/

/-- The call `mergePersistedState(merge)(next)(state, action)` in the world
`s`. -/
def mergePersistedState {σ : Type} (merge : Merge σ) (next : Reducer σ)
    (state : JSVal) (action : Action) (s : σ) : JSVal × σ :=
  if action.isInit then
    if action.payload.truthy then merge state action.payload s
    else (state, s)
  else next state action s

/-! ## `bufferActions` and `compose` -/

/-- The closure variables of one `bufferActions()`: whether it still
buffers, and the queue of the actions it holds. -/
structure BufferState where
  active : Bool
  queue : List Action

/-- The closure variables right after `bufferActions()` has been called. -/
def BufferState.initial : BufferState :=
  { active := true, queue := [] }

/-- The state of an enhanced store: the buffer of its dispatch pipeline and
the world the collaborators act on. Collaborators have no access to the
buffer. -/
structure Live (σ : Type) where
  buffer : BufferState
  world : σ

/-- The bypass marker of the Action Buffer: `action.meta.BUFFER_BUSTER` is
set (line 81 sets it to `true` on the Initialization Action). -/
def Action.hasBypassMarker (action : Action) : Bool :=
  (action.meta.getProp "BUFFER_BUSTER").truthy

/-- Modelled from the spec: `bufferActions.js` (imported on line 4) is not
under `src/`. Spec §4.1: while active, every dispatched action except one
bearing the bypass marker is appended to an internal queue and not
forwarded; an action bearing the bypass marker is forwarded immediately to
the underlying dispatch function, after which the buffer flushes all queued
actions (in original order) through the underlying dispatch function and
then permanently deactivates (all subsequent actions pass straight
through). This is `bufferActions()(next)(action)`. -/
def bufferActions {σ : Type} (next : Dispatch σ) (action : Action)
    (s : Live σ) : JSVal × Live σ :=
  if s.buffer.active then
    if action.hasBypassMarker then
      let s1 := (next action s.world).2
      let s2 := s.buffer.queue.foldl (fun w queued => (next queued w).2) s1
      (JSVal.undefined, { buffer := { active := false, queue := [] }, world := s2 })
    else
      (JSVal.undefined,
        { buffer := { active := true, queue := s.buffer.queue ++ [action] },
          world := s.world })
  else
    let r := next action s.world
    (r.1, { buffer := s.buffer, world := r.2 })

/-- Modelled from the spec: `compose` is imported from redux (line 1).
Spec §4.5 step 5: the enhanced dispatch is the composition Action Buffer,
wrapping Persistence Middleware, wrapping the store's native dispatch, that
is `compose(f, g, x) = f(g(x))`. -/
def compose {α β γ : Type} (f : β → γ) (g : α → β) (x : α) : γ :=
  f (g x)

/-! ## `persistState` (lines 53-91) -/

/-- The first argument of `persistState`: absent, a string, or an adapter
object (lines 56-61 distinguish them by `typeof`). -/
inductive StorageArg (σ : Type) where
  | undefined : StorageArg σ
  | str (s : String) : StorageArg σ
  | adapter (storage : Storage σ) : StorageArg σ

/-- The Initialization Action built on lines 79-83. -/
def initAction (persistedState : JSVal) : Action :=
  { type := JSVal.str ActionTypes.INIT,
    meta := JSVal.obj [("BUFFER_BUSTER", JSVal.bool true)],
    payload := persistedState }

/-- The action of the probe on line 65, `{ type: ActionTypes.INIT }`. -/
def probeAction : Action :=
  { type := JSVal.str ActionTypes.INIT,
    meta := JSVal.undefined,
    payload := JSVal.undefined }

/-- The callback handed to `storage.get` (lines 77-84); `dispatch` is the
constant of line 70. -/
def getCallback {σ : Type} (env : Env σ) (dispatch : Dispatch (Live σ))
    (err persistedState : JSVal) (s : Live σ) : Live σ :=
  let s1 : Live σ :=
    if err.truthy then
      { buffer := s.buffer,
        world := env.consoleError
          "Failed to retrieve initialize state from localStorage:" err s.world }
    else s
  (dispatch (initAction persistedState) s1).2

/-- What one call `persistState(storage, key)(next)(reducer, initialState)`
produces: the object it returns, the callback it has handed to
`storage.get`, and the state it leaves behind. -/
structure Enhanced (σ R : Type) where
  store : Store σ (Dispatch (Live σ)) R
  onGet : JSVal → JSVal → Live σ → Live σ
  state : Live σ

/-- Lines 54-61: the adapter and the key that `persistState(storage, key)`
goes on to use. -/
def resolve {σ : Type} (env : Env σ) (storage : StorageArg σ) (key : JSVal) :
    Storage σ × JSVal :=
  let key1 := key.orElse (JSVal.str "redux-localstorage")
  match storage with
  | StorageArg.undefined => (env.defaultStorage, key1)
  | StorageArg.str k => (env.defaultStorage, JSVal.str k)
  | StorageArg.adapter st => (st, key1)

/-- The call `persistState(storage, key)(next)(reducer, initialState)`, run in the
world `s`. -/
def persistState {σ R : Type} (env : Env σ) (storage : StorageArg σ)
    (key : JSVal) (next : CreateStore σ R) (reducer : Reducer σ)
    (initialState : JSVal) (s : σ) : Enhanced σ R :=
  let resolved := resolve env storage key
  let probe := reducer JSVal.undefined probeAction s
  let reducer1 : Reducer σ :=
    if probe.1.isDefined then mergePersistedState env.mergeState reducer
    else reducer
  let created := next reducer1 initialState probe.2
  let store := created.1
  let dispatch : Dispatch (Live σ) :=
    compose bufferActions
      (persistStateMiddleware env store resolved.1 resolved.2) store.dispatch
  let s3 := resolved.1.get resolved.2 created.2
  { store := { dispatch := dispatch, getState := store.getState, rest := store.rest },
    onGet := getCallback env dispatch,
    state := { buffer := BufferState.initial, world := s3 } }

/-- Dispatch the actions of a list one after the other through `dispatch`. -/
def dispatchAll {τ : Type} (dispatch : Dispatch τ) (actions : List Action)
    (s : τ) : τ :=
  actions.foldl (fun t a => (dispatch a t).2) s

/-! ## Recording collaborators

To count calls, the world is instantiated with `Spy W`: a world `W` of the
collaborators' own and the list of the calls made so far. A recording
collaborator runs an arbitrary behaviour on `W` and appends its call. -/

/-- One call of a collaborator, with its arguments. -/
inductive Call where
  | dispatch (action : Action) : Call
  | getState : Call
  | get (key : JSVal) : Call
  | put (key value : JSVal) : Call
  | consoleError (message : String) (err : JSVal) : Call
  | merge (initialState persistedState : JSVal) : Call
  | reducer (state : JSVal) (action : Action) : Call

/-- A world with a record of the calls made so far, oldest first. -/
structure Spy (W : Type) where
  world : W
  calls : List Call

/-- A recording dispatch function: the `next` of the middleware, the
`dispatch` of the store. -/
def spyDispatch {W : Type} (f : Action → W → JSVal × W) : Dispatch (Spy W) :=
  fun action s =>
    ((f action s.world).1,
      { world := (f action s.world).2, calls := s.calls ++ [Call.dispatch action] })

/-- A recording `getState`. -/
def spyGetState {W : Type} (f : W → JSVal × W) : Spy W → JSVal × Spy W :=
  fun s =>
    ((f s.world).1, { world := (f s.world).2, calls := s.calls ++ [Call.getState] })

/-- A recording storage adapter, which completes later: it does not invoke the
callback during the call. -/
def spyStorage {W : Type} (getW : JSVal → W → W) (putW : JSVal → JSVal → W → W) :
    Storage (Spy W) :=
  { get := fun key s =>
      { world := getW key s.world, calls := s.calls ++ [Call.get key] },
    put := fun key value _ s =>
      { world := putW key value s.world, calls := s.calls ++ [Call.put key value] } }

/-- A recording merge function. -/
def spyMerge {W : Type} (f : JSVal → JSVal → W → JSVal × W) : Merge (Spy W) :=
  fun a b s =>
    ((f a b s.world).1,
      { world := (f a b s.world).2, calls := s.calls ++ [Call.merge a b] })

/-- A recording reducer. -/
def spyReducer {W : Type} (f : JSVal → Action → W → JSVal × W) : Reducer (Spy W) :=
  fun state action s =>
    ((f state action s.world).1,
      { world := (f state action s.world).2,
        calls := s.calls ++ [Call.reducer state action] })

/-- A recording environment. -/
def spyEnv {W : Type} (getW : JSVal → W → W) (putW : JSVal → JSVal → W → W)
    (mergeW : JSVal → JSVal → W → JSVal × W) : Env (Spy W) :=
  { consoleError := fun message err s =>
      { world := s.world, calls := s.calls ++ [Call.consoleError message err] },
    defaultStorage := spyStorage getW putW,
    mergeState := spyMerge mergeW }

/-- A recording store. -/
def spyStore {W R : Type} (dispatchW : Action → W → JSVal × W)
    (getStateW : W → JSVal × W) (rest : R) : Store (Spy W) (Dispatch (Spy W)) R :=
  { dispatch := spyDispatch dispatchW, getState := spyGetState getStateW, rest := rest }

/-- A `createStore` that returns a recording store. What the store does with
an action is an arbitrary behaviour on `W`. -/
def spyCreateStore {W R : Type} (createW : JSVal → W → W)
    (dispatchW : Action → W → JSVal × W) (getStateW : W → JSVal × W) (rest : R) :
    CreateStore (Spy W) R :=
  fun _ initialState s =>
    (spyStore dispatchW getStateW rest,
      { world := createW initialState s.world, calls := s.calls })

/-- The actions a record shows the dispatch function to have received, in
order. -/
def dispatched : List Call → List Action
  | [] => []
  | Call.dispatch action :: rest => action :: dispatched rest
  | _ :: rest => dispatched rest

/-- The calls of the storage adapter in a record, in order. -/
def storageCalls : List Call → List Call
  | [] => []
  | Call.get key :: rest => Call.get key :: storageCalls rest
  | Call.put key value :: rest => Call.put key value :: storageCalls rest
  | _ :: rest => storageCalls rest

/-- A `createStore` that keeps the reducer it is handed in the store it
returns, next to the other properties of that store: it shows which reducer
`persistState` hands to `createStore`. -/
def keepReducer {σ R : Type} (next : CreateStore σ R) :
    CreateStore σ (Reducer σ × R) :=
  fun reducer initialState s =>
    ({ dispatch := (next reducer initialState s).1.dispatch,
       getState := (next reducer initialState s).1.getState,
       rest := (reducer, (next reducer initialState s).1.rest) },
      (next reducer initialState s).2)

/-- What happens to an enhanced store after it has been built: an action is
dispatched through its `dispatch`, or `storage.get` completes and calls back
with `(err, persistedState)`. -/
inductive Event where
  | dispatch (action : Action) : Event
  | getDone (err persistedState : JSVal) : Event

/-- One event on the store that `persistState` has built. -/
def Enhanced.step {σ R : Type} (e : Enhanced σ R) (s : Live σ) : Event → Live σ
  | Event.dispatch action => (e.store.dispatch action s).2
  | Event.getDone err persistedState => e.onGet err persistedState s

/-- A sequence of events, from the state `persistState` has left. -/
def Enhanced.run {σ R : Type} (e : Enhanced σ R) (events : List Event) : Live σ :=
  events.foldl e.step e.state

/-- The middleware over a recording store and a recording adapter, as
`persistState` builds it on line 72. -/
def spyMiddleware {W R : Type} (env : Env (Spy W)) (getW : JSVal → W → W)
    (putW : JSVal → JSVal → W → W) (key : JSVal)
    (dispatchW : Action → W → JSVal × W) (getStateW : W → JSVal × W) (rest : R) :
    Dispatch (Spy W) :=
  persistStateMiddleware env (spyStore dispatchW getStateW rest)
    (spyStorage getW putW) key (spyDispatch dispatchW)

/-- Between the records `before` and `after`, the storage adapter has only
been asked to `put`, and always under `key`. -/
def OnlyPuts (key : JSVal) (before after : List Call) : Prop :=
  ∃ values : List JSVal,
    storageCalls after = storageCalls before ++ values.map (Call.put key)

/-! ## Sample inputs -/

/-- A world without content, with collaborators that do nothing; the merge
returns the persisted state. -/
def unitEnv : Env Unit :=
  { consoleError := fun _ _ s => s,
    defaultStorage := { get := fun _ s => s, put := fun _ _ _ s => s },
    mergeState := fun _ persisted s => (persisted, s) }

/-- A reducer that ignores the action and answers with a fixed state. -/
def constReducer (v : JSVal) : Reducer Unit :=
  fun _ _ s => (v, s)

/-- A `createStore` for the world without content: the store does nothing. -/
def unitCreateStore : CreateStore Unit Unit :=
  fun _ _ s =>
    ({ dispatch := fun _ t => (JSVal.undefined, t),
       getState := fun t => (JSVal.undefined, t),
       rest := () }, s)

/-- An application action that sets the state to its payload. -/
def setAction (v : JSVal) : Action :=
  { type := JSVal.str "SET", meta := JSVal.undefined, payload := v }

/-- A store whose state is the world: an action replaces it by its payload. -/
def setDispatchW : Action → JSVal → JSVal × JSVal :=
  fun action _ => (JSVal.undefined, action.payload)

/-- The `getState` of the store whose state is the world. -/
def readStateW : JSVal → JSVal × JSVal :=
  fun w => (w, w)

/-- A recording environment over the store whose state is the world; the
adapters leave the world alone and the merge returns the persisted state. -/
def sampleEnv : Env (Spy JSVal) :=
  spyEnv (fun _ w => w) (fun _ _ w => w) (fun _ persisted w => (persisted, w))

/-- A recording adapter that leaves the world alone. -/
def sampleStorage : Storage (Spy JSVal) :=
  spyStorage (fun _ w => w) (fun _ _ w => w)

/-- A dispatch function on an enhanced store's state that only records the
action it receives. -/
def recordDispatch : Dispatch (Live (Spy Unit)) :=
  fun action s =>
    (JSVal.undefined,
      { buffer := s.buffer,
        world := { world := (), calls := s.world.calls ++ [Call.dispatch action] } })

/-- A `createStore` for the store whose state is the world: it starts from
the initial state and returns a recording store. -/
def sampleCreateStore : CreateStore (Spy JSVal) Unit :=
  spyCreateStore (fun initialState _ => initialState) setDispatchW readStateW ()

/-- A recording reducer that returns the state it is given. -/
def sampleReducer : Reducer (Spy JSVal) :=
  spyReducer (fun state _ w => (state, w))

/-! # Properties -/

/-- The test `action.type === ActionTypes.INIT` holds exactly of the actions
whose type is the string `'@@redux-localstorage/INIT'`. -/
theorem Action.isInit_iff (action : Action) :
    action.isInit = true ↔ action.type = JSVal.str ActionTypes.INIT := by
  unfold Action.isInit
  cases h : action.type <;> simp

/-- An action of another type fails the test. -/
theorem Action.isInit_eq_false (action : Action)
    (h : action.type ≠ JSVal.str ActionTypes.INIT) : action.isInit = false := by
  cases hb : action.isInit
  · rfl
  · exact absurd ((Action.isInit_iff action).1 hb) h

/-! ## The persistence middleware -/

/-- C1. For every store, storage adapter, key and action other than the
Initialization Action, one dispatch through the middleware makes three calls,
in this order: `next(action)` once, `store.getState()` once, and
`storage.put` once with the configured key and the state `getState` returns
in the world `next(action)` has left. -/
theorem persistStateMiddleware_puts_state_after_next {W D R : Type}
    (env : Env (Spy W)) (nextW : Action → W → JSVal × W)
    (getStateW : W → JSVal × W) (getW : JSVal → W → W)
    (putW : JSVal → JSVal → W → W) (d : D) (rest : R) (key : JSVal)
    (action : Action) (w : W) (calls : List Call)
    (h : action.type ≠ JSVal.str ActionTypes.INIT) :
    persistStateMiddleware env
        { dispatch := d, getState := spyGetState getStateW, rest := rest }
        (spyStorage getW putW) key (spyDispatch nextW) action
        { world := w, calls := calls }
      = (JSVal.undefined,
          { world := putW key (getStateW (nextW action w).2).1
              (getStateW (nextW action w).2).2,
            calls := calls ++ [Call.dispatch action, Call.getState,
              Call.put key (getStateW (nextW action w).2).1] }) := by
  simp [persistStateMiddleware, Action.isInit_eq_false action h, spyStorage,
    spyDispatch, spyGetState]

/-- Witness of C1 on the store whose state is the world: `SET 5` from an empty
record. -/
theorem persistStateMiddleware_puts_state_after_next_witness :
    (setAction (JSVal.num 5)).type ≠ JSVal.str ActionTypes.INIT ∧
    persistStateMiddleware sampleEnv
        { dispatch := (), getState := spyGetState readStateW, rest := () }
        (spyStorage (fun _ w => w) (fun _ _ w => w)) (JSVal.str "k")
        (spyDispatch setDispatchW) (setAction (JSVal.num 5))
        { world := JSVal.num 0, calls := [] }
      = (JSVal.undefined,
          { world := JSVal.num 5,
            calls := [Call.dispatch (setAction (JSVal.num 5)), Call.getState,
              Call.put (JSVal.str "k") (JSVal.num 5)] }) :=
  ⟨by simp [setAction, ActionTypes.INIT],
   persistStateMiddleware_puts_state_after_next sampleEnv setDispatchW readStateW
     (fun _ w => w) (fun _ _ w => w) () () (JSVal.str "k")
     (setAction (JSVal.num 5)) (JSVal.num 0) []
     (by simp [setAction, ActionTypes.INIT])⟩

/-- C2. For every action whose type is `'@@redux-localstorage/INIT'`, one
dispatch through the middleware makes one call only, `next(action)`: the
store is not read and `storage.put` is not called. -/
theorem persistStateMiddleware_init_no_put {W D R : Type}
    (env : Env (Spy W)) (nextW : Action → W → JSVal × W)
    (getStateW : W → JSVal × W) (getW : JSVal → W → W)
    (putW : JSVal → JSVal → W → W) (d : D) (rest : R) (key : JSVal)
    (action : Action) (w : W) (calls : List Call)
    (h : action.type = JSVal.str ActionTypes.INIT) :
    persistStateMiddleware env
        { dispatch := d, getState := spyGetState getStateW, rest := rest }
        (spyStorage getW putW) key (spyDispatch nextW) action
        { world := w, calls := calls }
      = (JSVal.undefined,
          { world := (nextW action w).2,
            calls := calls ++ [Call.dispatch action] }) := by
  simp [persistStateMiddleware, (Action.isInit_iff action).2 h, spyDispatch]

/-- Witness of C2: the Initialization Action with payload 5. -/
theorem persistStateMiddleware_init_no_put_witness :
    (initAction (JSVal.num 5)).type = JSVal.str ActionTypes.INIT ∧
    persistStateMiddleware sampleEnv
        { dispatch := (), getState := spyGetState readStateW, rest := () }
        (spyStorage (fun _ w => w) (fun _ _ w => w)) (JSVal.str "k")
        (spyDispatch setDispatchW) (initAction (JSVal.num 5))
        { world := JSVal.num 0, calls := [] }
      = (JSVal.undefined,
          { world := JSVal.num 5,
            calls := [Call.dispatch (initAction (JSVal.num 5))] }) :=
  ⟨rfl,
   persistStateMiddleware_init_no_put sampleEnv setDispatchW readStateW
     (fun _ w => w) (fun _ _ w => w) () () (JSVal.str "k")
     (initAction (JSVal.num 5)) (JSVal.num 0) [] rfl⟩

/-! ## The rehydration reducer wrapper -/

/-- C3, counterexample. The Initialization Action with the persisted value
`0`: the payload is not `undefined`, but the wrapped reducer returns the
state `'initial'` it was given, where `merge(state, payload)` is `0`. -/
theorem mergePersistedState_zero_payload_not_merged :
    (initAction (JSVal.num 0)).payload ≠ JSVal.undefined ∧
    mergePersistedState unitEnv.mergeState (constReducer JSVal.null)
        (JSVal.str "initial") (initAction (JSVal.num 0)) ()
      = (JSVal.str "initial", ()) ∧
    unitEnv.mergeState (JSVal.str "initial") (initAction (JSVal.num 0)).payload ()
      = (JSVal.num 0, ()) ∧
    mergePersistedState unitEnv.mergeState (constReducer JSVal.null)
        (JSVal.str "initial") (initAction (JSVal.num 0)) ()
      ≠ unitEnv.mergeState (JSVal.str "initial") (initAction (JSVal.num 0)).payload () := by
  refine ⟨?_, ?_, ?_, ?_⟩ <;>
    simp [mergePersistedState, initAction, Action.isInit, JSVal.truthy, unitEnv]

/-- C3, amended. For every merge function, reducer, state and Initialization
Action whose payload is truthy, the wrapped reducer returns
`merge(state, action.payload)`, in the world `merge` leaves. -/
theorem mergePersistedState_truthy_payload {σ : Type} (merge : Merge σ)
    (reducer : Reducer σ) (state : JSVal) (action : Action) (s : σ)
    (htype : action.type = JSVal.str ActionTypes.INIT)
    (hpayload : action.payload.truthy = true) :
    mergePersistedState merge reducer state action s
      = merge state action.payload s := by
  simp [mergePersistedState, (Action.isInit_iff action).2 htype, hpayload]

/-- Witness of the amended C3: the persisted object `{b: 3}`. -/
theorem mergePersistedState_truthy_payload_witness :
    (initAction (JSVal.obj [("b", JSVal.num 3)])).type = JSVal.str ActionTypes.INIT ∧
    (initAction (JSVal.obj [("b", JSVal.num 3)])).payload.truthy = true ∧
    mergePersistedState unitEnv.mergeState (constReducer JSVal.null)
        (JSVal.str "initial") (initAction (JSVal.obj [("b", JSVal.num 3)])) ()
      = unitEnv.mergeState (JSVal.str "initial")
          (initAction (JSVal.obj [("b", JSVal.num 3)])).payload () :=
  ⟨rfl, rfl,
   mergePersistedState_truthy_payload unitEnv.mergeState (constReducer JSVal.null)
     (JSVal.str "initial") (initAction (JSVal.obj [("b", JSVal.num 3)])) () rfl rfl⟩

/-- C4. For every merge function, reducer and state, the wrapped reducer
applied to an Initialization Action whose payload is `undefined` returns the
state it was given; the world and the record of calls are as before, so
neither `merge` nor the underlying reducer has been called. -/
theorem mergePersistedState_undefined_payload {W : Type}
    (mergeW : JSVal → JSVal → W → JSVal × W)
    (reducerW : JSVal → Action → W → JSVal × W) (state : JSVal)
    (action : Action) (w : W) (calls : List Call)
    (htype : action.type = JSVal.str ActionTypes.INIT)
    (hpayload : action.payload = JSVal.undefined) :
    mergePersistedState (spyMerge mergeW) (spyReducer reducerW) state action
        { world := w, calls := calls }
      = (state, { world := w, calls := calls }) := by
  simp [mergePersistedState, (Action.isInit_iff action).2 htype, hpayload,
    JSVal.truthy]

/-- Witness of C4: rehydration with nothing persisted, from the initial state
`{a: 1}`. -/
theorem mergePersistedState_undefined_payload_witness :
    (initAction JSVal.undefined).type = JSVal.str ActionTypes.INIT ∧
    (initAction JSVal.undefined).payload = JSVal.undefined ∧
    mergePersistedState (spyMerge (fun _ persisted w => (persisted, w)))
        (spyReducer (fun _ _ w => (JSVal.null, w)))
        (JSVal.obj [("a", JSVal.num 1)]) (initAction JSVal.undefined)
        { world := JSVal.num 0, calls := [] }
      = (JSVal.obj [("a", JSVal.num 1)], { world := JSVal.num 0, calls := [] }) :=
  ⟨rfl, rfl,
   mergePersistedState_undefined_payload (fun _ persisted w => (persisted, w))
     (fun _ _ w => (JSVal.null, w)) (JSVal.obj [("a", JSVal.num 1)])
     (initAction JSVal.undefined) (JSVal.num 0) [] rfl rfl⟩

/-! ## The store enhancer: which reducer reaches `createStore` -/

/-- The probe is defined exactly when it is not `undefined`. -/
theorem JSVal.isDefined_eq_false_iff (v : JSVal) :
    v.isDefined = false ↔ v = JSVal.undefined := by
  cases v <;> simp [JSVal.isDefined]

/-- C5, counterexample. The reducer that answers `'app'` to every action
returns a defined value for the probe, and the reducer `persistState` hands
to `createStore` is not that reducer: given the state `1` and the
Initialization Action it returns `1`, where the application's reducer
returns `'app'`. -/
theorem persistState_defined_probe_is_wrapped :
    (constReducer (JSVal.str "app") JSVal.undefined probeAction ()).1
      ≠ JSVal.undefined ∧
    (persistState unitEnv StorageArg.undefined JSVal.undefined
        (keepReducer unitCreateStore) (constReducer (JSVal.str "app"))
        JSVal.undefined ()).store.rest.1 (JSVal.num 1) probeAction ()
      = (JSVal.num 1, ()) ∧
    constReducer (JSVal.str "app") (JSVal.num 1) probeAction ()
      = (JSVal.str "app", ()) ∧
    (persistState unitEnv StorageArg.undefined JSVal.undefined
        (keepReducer unitCreateStore) (constReducer (JSVal.str "app"))
        JSVal.undefined ()).store.rest.1
      ≠ constReducer (JSVal.str "app") := by
  have h2 : (persistState unitEnv StorageArg.undefined JSVal.undefined
        (keepReducer unitCreateStore) (constReducer (JSVal.str "app"))
        JSVal.undefined ()).store.rest.1 (JSVal.num 1) probeAction ()
      = (JSVal.num 1, ()) := by
    simp [persistState, keepReducer, constReducer, JSVal.isDefined,
      mergePersistedState, probeAction, Action.isInit, JSVal.truthy]
  refine ⟨?_, h2, rfl, ?_⟩
  · simp [constReducer]
  · intro h
    rw [h] at h2
    simp [constReducer] at h2

/-- C5, amended. For every reducer that returns `undefined` for
`reducer(undefined, {type: '@@redux-localstorage/INIT'})`, `persistState`
does not apply the wrapper: the reducer handed to `createStore` is the
application's own reducer. For every reducer that returns a defined value,
the reducer handed to `createStore` is
`mergePersistedState(mergeState)(reducer)`. -/
theorem persistState_wraps_iff_probe_defined {σ R : Type} (env : Env σ)
    (storage : StorageArg σ) (key : JSVal) (next : CreateStore σ R)
    (reducer : Reducer σ) (initialState : JSVal) (s : σ) :
    ((reducer JSVal.undefined probeAction s).1 = JSVal.undefined →
      (persistState env storage key (keepReducer next) reducer initialState
          s).store.rest.1 = reducer) ∧
    ((reducer JSVal.undefined probeAction s).1 ≠ JSVal.undefined →
      (persistState env storage key (keepReducer next) reducer initialState
          s).store.rest.1 = mergePersistedState env.mergeState reducer) := by
  constructor
  · intro h
    simp only [persistState, keepReducer, h, JSVal.isDefined]
    simp
  · intro h
    have hd : (reducer JSVal.undefined probeAction s).1.isDefined = true := by
      cases hb : (reducer JSVal.undefined probeAction s).1.isDefined
      · exact absurd ((JSVal.isDefined_eq_false_iff _).1 hb) h
      · rfl
    simp only [persistState, keepReducer, hd]
    simp

/-- Witness of the amended C5: a reducer that returns the state it is given
(`undefined` for the probe) is handed on as it is, and the reducer that
answers `'app'` is wrapped. -/
theorem persistState_wraps_iff_probe_defined_witness :
    (((fun st _ s => (st, s)) : Reducer Unit) JSVal.undefined probeAction ()).1
      = JSVal.undefined ∧
    (persistState unitEnv StorageArg.undefined JSVal.undefined
        (keepReducer unitCreateStore) (fun st _ s => (st, s)) JSVal.undefined
        ()).store.rest.1 = (fun st _ s => (st, s)) ∧
    (constReducer (JSVal.str "app") JSVal.undefined probeAction ()).1
      ≠ JSVal.undefined ∧
    (persistState unitEnv StorageArg.undefined JSVal.undefined
        (keepReducer unitCreateStore) (constReducer (JSVal.str "app"))
        JSVal.undefined ()).store.rest.1
      = mergePersistedState unitEnv.mergeState (constReducer (JSVal.str "app")) :=
  ⟨rfl,
   (persistState_wraps_iff_probe_defined unitEnv StorageArg.undefined
     JSVal.undefined unitCreateStore (fun st _ s => (st, s)) JSVal.undefined
     ()).1 rfl,
   by simp [constReducer],
   (persistState_wraps_iff_probe_defined unitEnv StorageArg.undefined
     JSVal.undefined unitCreateStore (constReducer (JSVal.str "app"))
     JSVal.undefined ()).2 (by simp [constReducer])⟩

/-- C10. For every merge function `m` and reducer `r`, the manually wrapped
reducer `mergePersistedState(m)(r)` returns `undefined` on the probe with the
world and the record of calls as before (neither `m` nor `r` is called), and
`persistState` hands that reducer itself to `createStore`. -/
theorem persistState_no_double_wrapping {W R : Type}
    (mergeW : JSVal → JSVal → W → JSVal × W)
    (reducerW : JSVal → Action → W → JSVal × W) (env : Env (Spy W))
    (storage : StorageArg (Spy W)) (key : JSVal)
    (next : CreateStore (Spy W) R) (initialState : JSVal) (s : Spy W) :
    mergePersistedState (spyMerge mergeW) (spyReducer reducerW) JSVal.undefined
        probeAction s = (JSVal.undefined, s) ∧
    (persistState env storage key (keepReducer next)
        (mergePersistedState (spyMerge mergeW) (spyReducer reducerW))
        initialState s).store.rest.1
      = mergePersistedState (spyMerge mergeW) (spyReducer reducerW) := by
  have hprobe : mergePersistedState (spyMerge mergeW) (spyReducer reducerW)
      JSVal.undefined probeAction s = (JSVal.undefined, s) := by
    simp [mergePersistedState, probeAction, Action.isInit, JSVal.truthy]
  refine ⟨hprobe, ?_⟩
  simp only [persistState, keepReducer, hprobe, JSVal.isDefined]
  simp

/-! ## The store enhancer: the returned object and the `get` callback -/

/-- C9. For every store that `createStore` returns, the object `persistState`
returns has the `getState` of that store and every other property of it
(`rest`) unchanged, and its `dispatch` is
`compose(bufferActions(), persistStateMiddleware(store, storage, key),
store.dispatch)`, with the adapter and the key resolved on lines 54-61. -/
theorem persistState_returns_store_with_new_dispatch {σ R : Type} (env : Env σ)
    (storage : StorageArg σ) (key : JSVal) (next : CreateStore σ R)
    (reducer : Reducer σ) (initialState : JSVal) (s : σ) :
    let probe := reducer JSVal.undefined probeAction s
    let handed : Reducer σ :=
      if probe.1.isDefined then mergePersistedState env.mergeState reducer
      else reducer
    let store := (next handed initialState probe.2).1
    let e := persistState env storage key next reducer initialState s
    e.store.getState = store.getState ∧
    e.store.rest = store.rest ∧
    e.store.dispatch
      = compose bufferActions
          (persistStateMiddleware env store (resolve env storage key).1
            (resolve env storage key).2)
          store.dispatch := by
  intro probe handed store e
  exact ⟨rfl, rfl, rfl⟩

/-- C8, counterexample. The adapter calls back with the error `'boom'` and the
value `7`: the error is logged, and the one action dispatched is the
Initialization Action with payload `7`, not with an absent payload. -/
theorem getCallback_error_keeps_second_argument :
    (JSVal.str "boom").truthy = true ∧
    dispatched (getCallback (spyEnv (fun _ w => w) (fun _ _ w => w)
        (fun _ persisted w => (persisted, w))) recordDispatch
        (JSVal.str "boom") (JSVal.num 7)
        { buffer := BufferState.initial, world := { world := (), calls := [] } }
      ).world.calls = [initAction (JSVal.num 7)] ∧
    (initAction (JSVal.num 7)).payload ≠ JSVal.undefined := by
  refine ⟨rfl, ?_, ?_⟩
  · simp [getCallback, recordDispatch, spyEnv, JSVal.truthy, dispatched]
  · simp [initAction]

/-- C8, amended. When `storage.get` calls back, with or without an error,
`persistState` dispatches one action through the enhanced dispatch it has
returned: the Initialization Action, of type `'@@redux-localstorage/INIT'`,
with the bypass marker `meta.BUFFER_BUSTER` set to `true`, and with the second
argument of the callback as its payload, in both cases. An error (a truthy
first argument) is logged first. -/
theorem persistState_onGet_dispatches_init {σ R : Type} (env : Env σ)
    (storage : StorageArg σ) (key : JSVal) (next : CreateStore σ R)
    (reducer : Reducer σ) (initialState : JSVal) (s : σ)
    (err persistedState : JSVal) (t : Live σ) :
    (persistState env storage key next reducer initialState s).onGet err
        persistedState t
      = ((persistState env storage key next reducer initialState s).store.dispatch
          { type := JSVal.str "@@redux-localstorage/INIT",
            meta := JSVal.obj [("BUFFER_BUSTER", JSVal.bool true)],
            payload := persistedState }
          (if err.truthy then
            { buffer := t.buffer,
              world := env.consoleError
                "Failed to retrieve initialize state from localStorage:" err
                t.world }
           else t)).2 := by
  rfl

/-! ## Records of calls -/

/-- The dispatched actions of two records put together. -/
theorem dispatched_append (xs ys : List Call) :
    dispatched (xs ++ ys) = dispatched xs ++ dispatched ys := by
  induction xs with
  | nil => rfl
  | cons c cs ih => cases c <;> simp [dispatched, ih]

/-- The storage calls of two records put together. -/
theorem storageCalls_append (xs ys : List Call) :
    storageCalls (xs ++ ys) = storageCalls xs ++ storageCalls ys := by
  induction xs with
  | nil => rfl
  | cons c cs ih => cases c <;> simp [storageCalls, ih]

/-- Nothing has happened: only puts. -/
theorem OnlyPuts.refl (key : JSVal) (calls : List Call) : OnlyPuts key calls calls :=
  ⟨[], by simp⟩

/-- Only puts, then only puts. -/
theorem OnlyPuts.trans {key : JSVal} {a b c : List Call}
    (h1 : OnlyPuts key a b) (h2 : OnlyPuts key b c) : OnlyPuts key a c := by
  obtain ⟨v1, e1⟩ := h1
  obtain ⟨v2, e2⟩ := h2
  exact ⟨v1 ++ v2, by rw [e2, e1]; simp⟩

/-! ## The middleware over recording collaborators -/

/-- One dispatch through the middleware hands the action to the store's
dispatch, once. -/
theorem spyMiddleware_dispatched {W R : Type} (env : Env (Spy W))
    (getW : JSVal → W → W) (putW : JSVal → JSVal → W → W) (key : JSVal)
    (dispatchW : Action → W → JSVal × W) (getStateW : W → JSVal × W) (rest : R)
    (action : Action) (s : Spy W) :
    dispatched (spyMiddleware env getW putW key dispatchW getStateW rest action s).2.calls
      = dispatched s.calls ++ [action] := by
  unfold spyMiddleware persistStateMiddleware
  cases action.isInit <;>
    simp [spyStore, spyStorage, spyDispatch, spyGetState, dispatched_append, dispatched]

/-- One dispatch through the middleware asks the adapter for nothing but a
put under the key. -/
theorem spyMiddleware_onlyPuts {W R : Type} (env : Env (Spy W))
    (getW : JSVal → W → W) (putW : JSVal → JSVal → W → W) (key : JSVal)
    (dispatchW : Action → W → JSVal × W) (getStateW : W → JSVal × W) (rest : R)
    (action : Action) (s : Spy W) :
    OnlyPuts key s.calls
      (spyMiddleware env getW putW key dispatchW getStateW rest action s).2.calls := by
  unfold spyMiddleware persistStateMiddleware
  cases action.isInit
  · refine ⟨[(getStateW (dispatchW action s.world).2).1], ?_⟩
    simp [spyStore, spyStorage, spyDispatch, spyGetState, storageCalls_append, storageCalls]
  · refine ⟨[], ?_⟩
    simp [spyDispatch, storageCalls_append, storageCalls]

/-- Flushing a queue through the middleware hands its actions to the store's
dispatch, in order. -/
theorem flush_dispatched {W R : Type} (env : Env (Spy W))
    (getW : JSVal → W → W) (putW : JSVal → JSVal → W → W) (key : JSVal)
    (dispatchW : Action → W → JSVal × W) (getStateW : W → JSVal × W) (rest : R)
    (queue : List Action) (s : Spy W) :
    dispatched (queue.foldl (fun w queued =>
        (spyMiddleware env getW putW key dispatchW getStateW rest queued w).2) s).calls
      = dispatched s.calls ++ queue := by
  induction queue generalizing s with
  | nil => simp
  | cons a as ih =>
    rw [List.foldl_cons, ih, spyMiddleware_dispatched]
    simp

/-- Flushing a queue through the middleware asks the adapter for nothing but
puts under the key. -/
theorem flush_onlyPuts {W R : Type} (env : Env (Spy W))
    (getW : JSVal → W → W) (putW : JSVal → JSVal → W → W) (key : JSVal)
    (dispatchW : Action → W → JSVal × W) (getStateW : W → JSVal × W) (rest : R)
    (queue : List Action) (s : Spy W) :
    OnlyPuts key s.calls (queue.foldl (fun w queued =>
        (spyMiddleware env getW putW key dispatchW getStateW rest queued w).2) s).calls := by
  induction queue generalizing s with
  | nil => exact OnlyPuts.refl key s.calls
  | cons a as ih =>
    rw [List.foldl_cons]
    exact OnlyPuts.trans (spyMiddleware_onlyPuts env getW putW key dispatchW
      getStateW rest a s) (ih _)

/-! ## The action buffer -/

/-- While the buffer is active, actions without the bypass marker are queued
in order and nothing else happens. -/
theorem bufferActions_queues {σ : Type} (next : Dispatch σ) (actions : List Action)
    (queue : List Action) (w : σ)
    (hb : ∀ a ∈ actions, a.hasBypassMarker = false) :
    dispatchAll (bufferActions next) actions
        { buffer := { active := true, queue := queue }, world := w }
      = { buffer := { active := true, queue := queue ++ actions }, world := w } := by
  induction actions generalizing queue with
  | nil => simp [dispatchAll]
  | cons a as ih =>
    have ha : a.hasBypassMarker = false := hb a (List.mem_cons_self a as)
    have has : ∀ b ∈ as, b.hasBypassMarker = false :=
      fun b hm => hb b (List.mem_cons_of_mem a hm)
    have hstep : (bufferActions next a
        { buffer := { active := true, queue := queue }, world := w }).2
        = { buffer := { active := true, queue := queue ++ [a] }, world := w } := by
      simp [bufferActions, ha]
    simp only [dispatchAll, List.foldl_cons] at ih ⊢
    rw [hstep, ih (queue ++ [a]) has]
    simp

/-- An action with the bypass marker goes to the underlying dispatch first,
then the queue is flushed in order and the buffer is switched off. -/
theorem bufferActions_release {σ : Type} (next : Dispatch σ) (action : Action)
    (queue : List Action) (w : σ) (h : action.hasBypassMarker = true) :
    (bufferActions next action
        { buffer := { active := true, queue := queue }, world := w }).2
      = { buffer := { active := false, queue := [] },
          world := queue.foldl (fun v queued => (next queued v).2) (next action w).2 } := by
  simp [bufferActions, h]

/-- The Initialization Action of line 79 bears the bypass marker. -/
theorem initAction_hasBypassMarker (persistedState : JSVal) :
    (initAction persistedState).hasBypassMarker = true := by
  simp [initAction, Action.hasBypassMarker, JSVal.getProp, JSVal.truthy]

/-- One dispatch through buffer and middleware asks the adapter for nothing
but puts under the key, whatever the state of the buffer. -/
theorem bufferActions_onlyPuts {W R : Type} (env : Env (Spy W))
    (getW : JSVal → W → W) (putW : JSVal → JSVal → W → W) (key : JSVal)
    (dispatchW : Action → W → JSVal × W) (getStateW : W → JSVal × W) (rest : R)
    (action : Action) (t : Live (Spy W)) :
    OnlyPuts key t.world.calls
      (bufferActions (spyMiddleware env getW putW key dispatchW getStateW rest)
        action t).2.world.calls := by
  unfold bufferActions
  cases hact : t.buffer.active
  · simpa using spyMiddleware_onlyPuts env getW putW key dispatchW getStateW rest
      action t.world
  · cases hm : action.hasBypassMarker
    · simpa using OnlyPuts.refl key t.world.calls
    · simpa using OnlyPuts.trans
        (spyMiddleware_onlyPuts env getW putW key dispatchW getStateW rest action t.world)
        (flush_onlyPuts env getW putW key dispatchW getStateW rest t.buffer.queue _)

/-! ## The `get` callback over recording collaborators -/

/-- When the callback fires on an active buffer, the store's dispatch receives
the Initialization Action and then the queue, in order. -/
theorem getCallback_release_dispatched {W R : Type} (getD : JSVal → W → W)
    (putD : JSVal → JSVal → W → W) (mergeW : JSVal → JSVal → W → JSVal × W)
    (getW : JSVal → W → W) (putW : JSVal → JSVal → W → W) (key : JSVal)
    (dispatchW : Action → W → JSVal × W) (getStateW : W → JSVal × W) (rest : R)
    (err persistedState : JSVal) (queue : List Action) (w : Spy W) :
    dispatched (getCallback (spyEnv getD putD mergeW)
        (bufferActions (spyMiddleware (spyEnv getD putD mergeW) getW putW key
          dispatchW getStateW rest))
        err persistedState
        { buffer := { active := true, queue := queue }, world := w }).world.calls
      = dispatched w.calls ++ initAction persistedState :: queue := by
  unfold getCallback
  cases err.truthy <;>
    simp [bufferActions_release _ _ _ _ (initAction_hasBypassMarker persistedState),
      flush_dispatched, spyMiddleware_dispatched, spyEnv, dispatched_append, dispatched]

/-- The callback asks the adapter for nothing but puts under the key. -/
theorem getCallback_onlyPuts {W R : Type} (getD : JSVal → W → W)
    (putD : JSVal → JSVal → W → W) (mergeW : JSVal → JSVal → W → JSVal × W)
    (getW : JSVal → W → W) (putW : JSVal → JSVal → W → W) (key : JSVal)
    (dispatchW : Action → W → JSVal × W) (getStateW : W → JSVal × W) (rest : R)
    (err persistedState : JSVal) (t : Live (Spy W)) :
    OnlyPuts key t.world.calls
      (getCallback (spyEnv getD putD mergeW)
        (bufferActions (spyMiddleware (spyEnv getD putD mergeW) getW putW key
          dispatchW getStateW rest))
        err persistedState t).world.calls := by
  unfold getCallback
  cases err.truthy
  · simpa using bufferActions_onlyPuts (spyEnv getD putD mergeW) getW putW key
      dispatchW getStateW rest (initAction persistedState) t
  · have h := bufferActions_onlyPuts (spyEnv getD putD mergeW) getW putW key
      dispatchW getStateW rest (initAction persistedState)
      { buffer := t.buffer,
        world := (spyEnv getD putD mergeW).consoleError
          "Failed to retrieve initialize state from localStorage:" err t.world }
    have h0 : OnlyPuts key t.world.calls
        ((spyEnv getD putD mergeW).consoleError
          "Failed to retrieve initialize state from localStorage:" err t.world).calls :=
      ⟨[], by simp [spyEnv, storageCalls_append, storageCalls]⟩
    simpa using OnlyPuts.trans h0 h

/-- Any sequence of events on a store whose dispatch is buffer and middleware
over recording collaborators asks the adapter for nothing but puts under the
key. -/
theorem events_onlyPuts {W R : Type} (getD : JSVal → W → W)
    (putD : JSVal → JSVal → W → W) (mergeW : JSVal → JSVal → W → JSVal × W)
    (getW : JSVal → W → W) (putW : JSVal → JSVal → W → W) (key : JSVal)
    (dispatchW : Action → W → JSVal × W) (getStateW : W → JSVal × W) (rest : R)
    (e : Enhanced (Spy W) R)
    (hd : e.store.dispatch = bufferActions (spyMiddleware (spyEnv getD putD mergeW)
      getW putW key dispatchW getStateW rest))
    (ho : e.onGet = getCallback (spyEnv getD putD mergeW) e.store.dispatch)
    (events : List Event) (t : Live (Spy W)) :
    OnlyPuts key t.world.calls (events.foldl e.step t).world.calls := by
  induction events generalizing t with
  | nil => exact OnlyPuts.refl key t.world.calls
  | cons ev evs ih =>
    rw [List.foldl_cons]
    refine OnlyPuts.trans ?_ (ih _)
    cases ev with
    | dispatch action =>
      simp only [Enhanced.step, hd]
      exact bufferActions_onlyPuts _ getW putW key dispatchW getStateW rest action t
    | getDone err persistedState =>
      simp only [Enhanced.step, ho, hd]
      exact getCallback_onlyPuts getD putD mergeW getW putW key dispatchW getStateW
        rest err persistedState t

/-- With an adapter object as first argument, the startup `get` and every
`put` use the key `key || 'redux-localstorage'`. -/
theorem persistState_storageCalls {W R : Type} (getD : JSVal → W → W)
    (putD : JSVal → JSVal → W → W) (mergeW : JSVal → JSVal → W → JSVal × W)
    (getW : JSVal → W → W) (putW : JSVal → JSVal → W → W) (key : JSVal)
    (createW : JSVal → W → W) (dispatchW : Action → W → JSVal × W)
    (getStateW : W → JSVal × W) (rest : R)
    (reducerW : JSVal → Action → W → JSVal × W) (initialState : JSVal) (w : W)
    (calls : List Call) (events : List Event) :
    ∃ values : List JSVal,
      storageCalls ((persistState (spyEnv getD putD mergeW)
          (StorageArg.adapter (spyStorage getW putW)) key
          (spyCreateStore createW dispatchW getStateW rest) (spyReducer reducerW)
          initialState { world := w, calls := calls }).run events).world.calls
        = storageCalls calls
          ++ Call.get (key.orElse (JSVal.str "redux-localstorage"))
            :: values.map (Call.put (key.orElse (JSVal.str "redux-localstorage"))) := by
  obtain ⟨values, hv⟩ := events_onlyPuts getD putD mergeW getW putW
    (key.orElse (JSVal.str "redux-localstorage")) dispatchW getStateW rest
    (persistState (spyEnv getD putD mergeW)
      (StorageArg.adapter (spyStorage getW putW)) key
      (spyCreateStore createW dispatchW getStateW rest) (spyReducer reducerW)
      initialState { world := w, calls := calls }) rfl rfl events
    (persistState (spyEnv getD putD mergeW)
      (StorageArg.adapter (spyStorage getW putW)) key
      (spyCreateStore createW dispatchW getStateW rest) (spyReducer reducerW)
      initialState { world := w, calls := calls }).state
  refine ⟨values, ?_⟩
  rw [Enhanced.run, hv]
  simp [persistState, resolve, spyStorage, spyCreateStore, spyReducer,
    storageCalls_append, storageCalls]

/-! ## The store enhancer: buffering until rehydration, and the key -/

/-- C6. For every list of actions without the bypass marker dispatched
through the enhanced dispatch before the callback of `storage.get` fires,
no collaborator is called (the store's dispatch receives none of them); when
the callback fires, the store's dispatch receives the Initialization Action
first and then exactly those actions, each once, in their original order. -/
theorem persistState_init_first_then_buffered {W R : Type}
    (getD : JSVal → W → W) (putD : JSVal → JSVal → W → W)
    (mergeW : JSVal → JSVal → W → JSVal × W) (getW : JSVal → W → W)
    (putW : JSVal → JSVal → W → W) (storage : StorageArg (Spy W)) (key : JSVal)
    (createW : JSVal → W → W) (dispatchW : Action → W → JSVal × W)
    (getStateW : W → JSVal × W) (rest : R) (reducer : Reducer (Spy W))
    (initialState : JSVal) (s : Spy W) (actions : List Action)
    (err persistedState : JSVal)
    (hs : (resolve (spyEnv getD putD mergeW) storage key).1 = spyStorage getW putW)
    (hb : ∀ a ∈ actions, a.hasBypassMarker = false) :
    let e := persistState (spyEnv getD putD mergeW) storage key
      (spyCreateStore createW dispatchW getStateW rest) reducer initialState s
    let before := dispatchAll e.store.dispatch actions e.state
    let after := e.onGet err persistedState before
    before.world = e.state.world ∧
    dispatched after.world.calls
      = dispatched e.state.world.calls ++ initAction persistedState :: actions := by
  intro e before after
  have hd : e.store.dispatch = bufferActions (spyMiddleware (spyEnv getD putD mergeW)
      getW putW (resolve (spyEnv getD putD mergeW) storage key).2 dispatchW
      getStateW rest) := by
    simp only [e, persistState, compose, spyMiddleware, spyCreateStore, spyStore, hs]
  have hbefore : before
      = { buffer := { active := true, queue := actions }, world := e.state.world } := by
    have h := bufferActions_queues (spyMiddleware (spyEnv getD putD mergeW)
      getW putW (resolve (spyEnv getD putD mergeW) storage key).2 dispatchW
      getStateW rest) actions [] e.state.world hb
    simp only [List.nil_append] at h
    simp only [before, hd]
    exact h
  refine ⟨by rw [hbefore], ?_⟩
  have ho : after = getCallback (spyEnv getD putD mergeW) e.store.dispatch err
      persistedState before := rfl
  rw [ho, hd, hbefore]
  exact getCallback_release_dispatched getD putD mergeW getW putW _ dispatchW
    getStateW rest err persistedState actions e.state.world

/-- Witness of C6: `SET 1` and `SET 2` are dispatched before the adapter
answers with the persisted state `9`. -/
theorem persistState_init_first_then_buffered_witness :
    (resolve sampleEnv (StorageArg.adapter sampleStorage) (JSVal.str "k")).1
      = sampleStorage ∧
    (∀ a ∈ [setAction (JSVal.num 1), setAction (JSVal.num 2)],
      a.hasBypassMarker = false) ∧
    (let e := persistState sampleEnv (StorageArg.adapter sampleStorage)
      (JSVal.str "k") sampleCreateStore sampleReducer (JSVal.num 0)
      { world := JSVal.undefined, calls := [] }
     let before := dispatchAll e.store.dispatch
      [setAction (JSVal.num 1), setAction (JSVal.num 2)] e.state
     let after := e.onGet JSVal.undefined (JSVal.num 9) before
     before.world = e.state.world ∧
     dispatched after.world.calls
       = dispatched e.state.world.calls ++ initAction (JSVal.num 9)
          :: [setAction (JSVal.num 1), setAction (JSVal.num 2)]) :=
  ⟨rfl,
   by simp [setAction, Action.hasBypassMarker, JSVal.getProp, JSVal.truthy],
   persistState_init_first_then_buffered (fun _ w => w) (fun _ _ w => w)
     (fun _ persisted w => (persisted, w)) (fun _ w => w) (fun _ _ w => w)
     (StorageArg.adapter sampleStorage) (JSVal.str "k")
     (fun initialState _ => initialState) setDispatchW readStateW ()
     sampleReducer (JSVal.num 0) { world := JSVal.undefined, calls := [] }
     [setAction (JSVal.num 1), setAction (JSVal.num 2)] JSVal.undefined
     (JSVal.num 9) rfl
     (by simp [setAction, Action.hasBypassMarker, JSVal.getProp, JSVal.truthy])⟩

/-- C7, counterexample. With the empty string as explicit key, the startup
`get` uses the key `'redux-localstorage'`, and so does the `put` after
rehydration and `SET 5`: neither uses the key `''`. -/
theorem persistState_empty_key_uses_default :
    storageCalls (persistState sampleEnv (StorageArg.adapter sampleStorage)
        (JSVal.str "") sampleCreateStore sampleReducer (JSVal.num 0)
        { world := JSVal.undefined, calls := [] }).state.world.calls
      = [Call.get (JSVal.str "redux-localstorage")] ∧
    storageCalls ((persistState sampleEnv (StorageArg.adapter sampleStorage)
        (JSVal.str "") sampleCreateStore sampleReducer (JSVal.num 0)
        { world := JSVal.undefined, calls := [] }).run
        [Event.getDone JSVal.undefined JSVal.undefined,
         Event.dispatch (setAction (JSVal.num 5))]).world.calls
      = [Call.get (JSVal.str "redux-localstorage"),
         Call.put (JSVal.str "redux-localstorage") (JSVal.num 5)] ∧
    Call.get (JSVal.str "redux-localstorage") ≠ Call.get (JSVal.str "") ∧
    Call.put (JSVal.str "redux-localstorage") (JSVal.num 5)
      ≠ Call.put (JSVal.str "") (JSVal.num 5) := by
  refine ⟨?_, ?_, by simp, by simp⟩ <;>
  simp [Enhanced.run, Enhanced.step, persistState, resolve, JSVal.orElse,
    JSVal.truthy, sampleEnv, sampleStorage, sampleCreateStore, sampleReducer,
    spyEnv, spyStorage, spyCreateStore, spyStore, spyReducer, spyDispatch,
    spyGetState, compose, bufferActions, BufferState.initial, getCallback,
    persistStateMiddleware, initAction, setAction, Action.hasBypassMarker,
    Action.isInit, ActionTypes.INIT, JSVal.getProp, setDispatchW, readStateW,
    storageCalls]

/-- C7, amended. For every adapter object and every non-empty string `k`
passed as the explicit key argument, the startup `storage.get` and every
`storage.put`, over any sequence of dispatches and callbacks, use the key
`k`; when no key argument is given, they use `'redux-localstorage'`. The
adapter is asked for one `get`, at startup, and for nothing but puts after
it. -/
theorem persistState_uses_key {W R : Type} (getD : JSVal → W → W)
    (putD : JSVal → JSVal → W → W) (mergeW : JSVal → JSVal → W → JSVal × W)
    (getW : JSVal → W → W) (putW : JSVal → JSVal → W → W) (k : String)
    (createW : JSVal → W → W) (dispatchW : Action → W → JSVal × W)
    (getStateW : W → JSVal × W) (rest : R)
    (reducerW : JSVal → Action → W → JSVal × W) (initialState : JSVal) (w : W)
    (calls : List Call) (events : List Event) (hk : k ≠ "") :
    (∃ values : List JSVal,
      storageCalls ((persistState (spyEnv getD putD mergeW)
          (StorageArg.adapter (spyStorage getW putW)) (JSVal.str k)
          (spyCreateStore createW dispatchW getStateW rest) (spyReducer reducerW)
          initialState { world := w, calls := calls }).run events).world.calls
        = storageCalls calls
          ++ Call.get (JSVal.str k) :: values.map (Call.put (JSVal.str k))) ∧
    (∃ values : List JSVal,
      storageCalls ((persistState (spyEnv getD putD mergeW)
          (StorageArg.adapter (spyStorage getW putW)) JSVal.undefined
          (spyCreateStore createW dispatchW getStateW rest) (spyReducer reducerW)
          initialState { world := w, calls := calls }).run events).world.calls
        = storageCalls calls
          ++ Call.get (JSVal.str "redux-localstorage")
            :: values.map (Call.put (JSVal.str "redux-localstorage"))) := by
  have h1 := persistState_storageCalls getD putD mergeW getW putW (JSVal.str k)
    createW dispatchW getStateW rest reducerW initialState w calls events
  have h2 := persistState_storageCalls getD putD mergeW getW putW JSVal.undefined
    createW dispatchW getStateW rest reducerW initialState w calls events
  have e1 : (JSVal.str k).orElse (JSVal.str "redux-localstorage") = JSVal.str k := by
    simp [JSVal.orElse, JSVal.truthy, hk]
  have e2 : JSVal.undefined.orElse (JSVal.str "redux-localstorage")
      = JSVal.str "redux-localstorage" := by
    simp [JSVal.orElse, JSVal.truthy]
  rw [e1] at h1
  rw [e2] at h2
  exact ⟨h1, h2⟩

/-- Witness of the amended C7: the key `'app'`, with the callback and then
`SET 5`. -/
theorem persistState_uses_key_witness :
    "app" ≠ "" ∧
    (∃ values : List JSVal,
      storageCalls ((persistState sampleEnv (StorageArg.adapter sampleStorage)
          (JSVal.str "app") sampleCreateStore sampleReducer (JSVal.num 0)
          { world := JSVal.undefined, calls := [] }).run
          [Event.getDone JSVal.undefined JSVal.undefined,
           Event.dispatch (setAction (JSVal.num 5))]).world.calls
        = storageCalls []
          ++ Call.get (JSVal.str "app") :: values.map (Call.put (JSVal.str "app"))) ∧
    (∃ values : List JSVal,
      storageCalls ((persistState sampleEnv (StorageArg.adapter sampleStorage)
          JSVal.undefined sampleCreateStore sampleReducer (JSVal.num 0)
          { world := JSVal.undefined, calls := [] }).run
          [Event.getDone JSVal.undefined JSVal.undefined,
           Event.dispatch (setAction (JSVal.num 5))]).world.calls
        = storageCalls []
          ++ Call.get (JSVal.str "redux-localstorage")
            :: values.map (Call.put (JSVal.str "redux-localstorage"))) :=
  ⟨by decide,
   persistState_uses_key (fun _ w => w) (fun _ _ w => w)
     (fun _ persisted w => (persisted, w)) (fun _ w => w) (fun _ _ w => w) "app"
     (fun initialState _ => initialState) setDispatchW readStateW ()
     (fun state _ w => (state, w)) (JSVal.num 0) JSVal.undefined []
     [Event.getDone JSVal.undefined JSVal.undefined,
      Event.dispatch (setAction (JSVal.num 5))] (by decide)⟩

end ReduxLocalStorage
